import Mathlib

/-!
Shallow embedding of `src/lib/Dispatcher.js` (davidlg/dispatchr).

The registry owns three JavaScript objects (`stores`, `domains`, `handlers`),
modelled here as association lists with string keys.  JavaScript values that
can reach the registry's API are modelled by `JSVal`: `null`, `undefined`,
strings, functions/classes (carrying an `id` for reference identity, the
optional `storeName` property, the intrinsic `name` string and the optional
static `handlers` map), and plain objects (id, optional `storeName`, optional
`name`).  Structural equality on `JSVal` models the JavaScript `===` check:
distinct references are given distinct `id`s.

Mutating operations (`registerStore`, `registerDomain`) are embedded as
`Dispatcher → JSVal → Dispatcher × Option JSError`: the returned state is the
state at the moment the function returns or throws, so "no mutation before the
throw" is a provable property rather than an artifact of the embedding.
Read-only operations return `Except JSError _`.
-/

set_option autoImplicit false

namespace Dispatchr

/-- A handler value in a store's static `handlers` map: either a direct
callable (a function reference, identified by `id`) or the name of a method to
resolve later on a store instance. -/
inductive Handler where
  | direct (id : Nat)
  | byName (methodName : String)
deriving DecidableEq, Repr

/-- JavaScript values that can be passed to the registry's API. -/
inductive JSVal where
  | vnull
  | vundefined
  | vstr (s : String)
  | vfunc (id : Nat) ( storeName : Option String) (name : String)
      (handlers : Option (List (String × Handler)))
  | vobj (id : Nat) ( storeName : Option String) (name : Option String)
deriving DecidableEq, Repr

/-- JavaScript truthiness of a value: `null`/`undefined` are falsy, a string is
falsy exactly when empty, functions and objects are always truthy. -/
def truthy : JSVal → Bool
  | .vnull => false
  | .vundefined => false
  | .vstr s => s ≠ ""
  | .vfunc _ _ _ _ => true
  | .vobj _ _ _ => true

/-- `'function' === typeof v`. -/
def isFunction : JSVal → Bool
  | .vfunc _ _ _ _ => true
  | _ => false

/-- JavaScript `a || b` restricted to string-or-undefined operands (the shape
of `store.storeName || store.name`): the first operand is returned unless it is
absent (`undefined`) or the empty string (falsy). -/
def jsOrStr : Option String → Option String → Option String
  | some s, b => if s = "" then b else some s
  | none, b => b

/-- The pure part of `getStoreName`: the canonical name a value resolves to
(`none` models the JavaScript result `undefined`).  For `null`/`undefined`
the real `getStoreName` throws instead; see `getStoreName`. -/
def storeNameOf : JSVal → Option String
  | .vstr s => some s
  | .vfunc _ sn n _ => jsOrStr sn (some n)
  | .vobj _ sn n => jsOrStr sn n
  | .vnull => none
  | .vundefined => none

/-- Errors a registry operation can throw. -/
inductive JSError where
  | jsError (msg : String)
  | typeError
  | referenceError (name : String)
deriving DecidableEq, Repr

/-- `Dispatcher.prototype.getStoreName`: a string argument is returned
unchanged; otherwise `store.storeName || store.name` is read, which on `null`
or `undefined` throws a TypeError from the property access. -/
def getStoreName : JSVal → Except JSError (Option String)
  | .vnull => .error .typeError
  | .vundefined => .error .typeError
  | v => .ok (storeNameOf v)

/-- Truthiness of a resolved name (`!storeName`): falsy when `undefined` or
the empty string. -/
def nameTruthy : Option String → Bool
  | none => false
  | some s => s ≠ ""

/-- A possibly-`undefined` name used as a JavaScript property key:
`obj[undefined]` accesses the key `"undefined"`. -/
def jsKey : Option String → String
  | some s => s
  | none => "undefined"

/-- Lookup in an association list modelling a JavaScript object (keys are
unique by construction, first match wins). -/
def alistGet {α : Type} : List (String × α) → String → Option α
  | [], _ => none
  | (k', v) :: t, k => if k' = k then some v else alistGet t k

/-- Property write on a JavaScript object: replace in place when the key
exists, append otherwise. -/
def alistSet {α : Type} : List (String × α) → String → α → List (String × α)
  | [], k, v => [(k, v)]
  | (k', v') :: t, k, v =>
      if k' = k then (k', v) :: t else (k', v') :: alistSet t k v

/-- One entry of a per-action handler list: the owning store's name and its
handler. -/
structure HandlerBinding where
  name : String
  handler : Handler
deriving DecidableEq, Repr

/-- Truthiness of a property lookup result (`undefined` when absent). -/
def truthyOpt : Option JSVal → Bool
  | none => false
  | some v => truthy v

/-- The registry state: the `stores`, `domains` and `handlers` objects. -/
structure Dispatcher where
  stores : List (String × JSVal)
  domains : List (String × JSVal)
  handlers : List (String × List HandlerBinding)
deriving DecidableEq, Repr

/-- The state built by the `Dispatcher` constructor before any registration:
empty store and domain registries and a handler table holding only
`handlers["default"] = []`. -/
def newDispatcher : Dispatcher :=
  { stores := [], domains := [], handlers := [("default", [])] }

/-- `Dispatcher.prototype._registerHandler`:
`this.handlers[action] = this.handlers[action] || []` followed by a push of
`{name: this.getStoreName(name), handler}` (here `name` is already a string,
so `getStoreName` returns it unchanged).  An existing list — even an empty
one, arrays being truthy — is extended; an absent key gets a fresh list. -/
def registerHandler (tbl : List (String × List HandlerBinding))
    (action name : String) (handler : Handler) :
    List (String × List HandlerBinding) :=
  alistSet tbl action ((alistGet tbl action).getD [] ++ [⟨name, handler⟩])

/-- The `Object.keys(store.handlers).forEach` loop of `registerStore`: keys in
enumeration (insertion) order, one `registerHandler` call each. -/
def registerHandlers (tbl : List (String × List HandlerBinding))
    (name : String) (hs : List (String × Handler)) :
    List (String × List HandlerBinding) :=
  hs.foldl (fun t p => registerHandler t p.1 name p.2) tbl

/-- The static `handlers` map of a value (`store.handlers`), present only on
functions that declare one. -/
def staticHandlers : JSVal → Option (List (String × Handler))
  | .vfunc _ _ _ hs => hs
  | _ => none

/-- The successful tail of `registerStore`: bind the name in `stores` and, if
the store declares a static `handlers` map, run the handler-table side
effect. -/
def bindStore (d : Dispatcher) (name : String) (store : JSVal) : Dispatcher :=
  { d with
    stores := alistSet d.stores name store
    handlers :=
      match staticHandlers store with
      | some hs => registerHandlers d.handlers name hs
      | none => d.handlers }

/-- `Dispatcher.prototype.registerStore`.  Returns the registry state at the
point the function returns or throws, paired with the thrown error if any. -/
def registerStore (d : Dispatcher) (store : JSVal) :
    Dispatcher × Option JSError :=
  if isFunction store = false then
    (d, some (.jsError "registerStore requires a constructor as first parameter"))
  else
    match getStoreName store with
    | .error e => (d, some e)
    | .ok snOpt =>
      if nameTruthy snOpt = false then
        (d, some (.jsError "Store is required to have a `storeName` property."))
      else
        let storeName := jsKey snOpt
        let existing := alistGet d.stores storeName
        if truthyOpt existing then
          if existing = some store then (d, none)
          else (d, some (.jsError
            ("Store with name `" ++ storeName ++ "` has already been registered.")))
        else
          (bindStore d storeName store, none)

/-- `Dispatcher.prototype.registerDomain`.  Note: unlike `registerStore` there
is no `typeof` precondition; name resolution happens immediately. -/
def registerDomain (d : Dispatcher) (domain : JSVal) :
    Dispatcher × Option JSError :=
  match getStoreName domain with
  | .error e => (d, some e)
  | .ok dnOpt =>
    if nameTruthy dnOpt = false then
      (d, some (.jsError "Store is required to have a `storeName` property."))
    else
      let domainName := jsKey dnOpt
      let existing := alistGet d.domains domainName
      if truthyOpt existing then
        if existing = some domain then (d, none)
        else (d, some (.jsError
          ("Domain with name `" ++ domainName ++ "` has already been registered.")))
      else
        ({ d with domains := alistSet d.domains domainName domain }, none)

/-- `Dispatcher.prototype.isRegistered`: resolve the name (may throw on
`null`/`undefined`), look it up in `stores`; falsy lookup gives `false`; a
function argument additionally requires reference identity with the bound
value. -/
def isRegistered (d : Dispatcher) (store : JSVal) : Except JSError Bool :=
  match getStoreName store with
  | .error e => .error e
  | .ok snOpt =>
    let storeInstance := alistGet d.stores (jsKey snOpt)
    if truthyOpt storeInstance = false then .ok false
    else if isFunction store = true ∧ some store ≠ storeInstance then .ok false
    else .ok true

/-- `Dispatcher.prototype.isRegisteredDomain`, as written in the source.  Its
second declarator reads `this.domainName[storeName]`: the registry has no
`domainName` property and `storeName` is a free identifier, so under the
file's strict mode evaluating the subscript throws
`ReferenceError: storeName is not defined` on every call that survives name
resolution; the remainder of the body is unreachable. -/
def isRegisteredDomain (d : Dispatcher) (domain : JSVal) : Except JSError Bool :=
  match getStoreName domain with
  | .error e => .error e
  | .ok _ =>
    let _ := d.domains
    .error (.referenceError "storeName is not defined")

/-- The `options.stores.forEach(this.registerStore)` loop of the constructor:
a throw aborts the remaining iterations. -/
def registerStores (d : Dispatcher) : List JSVal → Dispatcher × Option JSError
  | [] => (d, none)
  | s :: t =>
    match registerStore d s with
    | (d', none) => registerStores d' t
    | (d', some e) => (d', some e)

/-- The `options.domains.forEach(this.registerDomain)` loop of the
constructor. -/
def registerDomains (d : Dispatcher) : List JSVal → Dispatcher × Option JSError
  | [] => (d, none)
  | dom :: t =>
    match registerDomain d dom with
    | (d', none) => registerDomains d' t
    | (d', some e) => (d', some e)

/-- The exported `createDispatcher(options)` factory: construct the empty
registry, register `options.stores` in order, then `options.domains` in
order. -/
def createDispatcher (stores domains : List JSVal) :
    Dispatcher × Option JSError :=
  match registerStores newDispatcher stores with
  | (d1, none) => registerDomains d1 domains
  | (d1, some e) => (d1, some e)

/-! ### Association-list lemmas -/

theorem alistGet_alistSet_self {α : Type} (l : List (String × α)) (k : String) (v : α) :
    alistGet (alistSet l k v) k = some v := by
  induction l with
  | nil => simp [alistSet, alistGet]
  | cons p t ih =>
    obtain ⟨k', v'⟩ := p
    by_cases h : k' = k <;> simp [alistSet, alistGet, h, ih]

theorem alistGet_alistSet_ne {α : Type} (l : List (String × α)) (k k' : String) (v : α)
    (h : k' ≠ k) : alistGet (alistSet l k v) k' = alistGet l k' := by
  have hk : ¬ (k = k') := fun hh => h hh.symm
  induction l with
  | nil => simp [alistSet, alistGet, hk]
  | cons p t ih =>
    obtain ⟨k'', v'⟩ := p
    by_cases h2 : k'' = k
    · subst h2
      simp [alistSet, alistGet, hk]
    · simp only [alistSet, if_neg h2, alistGet]
      by_cases h3 : k'' = k' <;> simp [h3, ih]

/-! ### Reduction lemmas -/

/-- `registerStore` on a function argument, with the `typeof` check and name
resolution unfolded. -/
theorem registerStore_vfunc_red (d : Dispatcher) (i : Nat) (sn : Option String)
    (n : String) (hs : Option (List (String × Handler))) :
    registerStore d (.vfunc i sn n hs) =
      (if nameTruthy (jsOrStr sn (some n)) = false then
        (d, some (.jsError "Store is required to have a `storeName` property."))
      else if truthyOpt (alistGet d.stores (jsKey (jsOrStr sn (some n)))) then
        if alistGet d.stores (jsKey (jsOrStr sn (some n))) =
            some (.vfunc i sn n hs) then (d, none)
        else (d, some (.jsError ("Store with name `" ++
          jsKey (jsOrStr sn (some n)) ++ "` has already been registered.")))
      else
        (bindStore d (jsKey (jsOrStr sn (some n))) (.vfunc i sn n hs),
          none)) := rfl

/-- `registerDomain` with name resolution discharged. -/
theorem registerDomain_red (d : Dispatcher) (domain : JSVal) (r : Option String)
    (hr : getStoreName domain = .ok r) :
    registerDomain d domain =
      (if nameTruthy r = false then
        (d, some (.jsError "Store is required to have a `storeName` property."))
      else if truthyOpt (alistGet d.domains (jsKey r)) then
        if alistGet d.domains (jsKey r) = some domain then (d, none)
        else (d, some (.jsError ("Domain with name `" ++ jsKey r ++
          "` has already been registered.")))
      else
        ({ d with domains := alistSet d.domains (jsKey r) domain }, none)) := by
  unfold registerDomain
  rw [hr]

/-- `isRegistered` with name resolution discharged. -/
theorem isRegistered_red (d : Dispatcher) (v : JSVal) (r : Option String)
    (hr : getStoreName v = .ok r) :
    isRegistered d v =
      (if truthyOpt (alistGet d.stores (jsKey r)) = false then .ok false
       else if isFunction v = true ∧ some v ≠ alistGet d.stores (jsKey r) then
         .ok false
       else .ok true) := by
  unfold isRegistered
  rw [hr]

/-! ### Characterization of successful registrations -/

/-- A successful `registerStore` call: the argument is a function with a
truthy canonical name, and either the name was already bound to the same
reference (no-op) or it was unbound and the binding plus handler side effect
ran. -/
theorem registerStore_ok_cases (d d' : Dispatcher) (s : JSVal)
    (h : registerStore d s = (d', none)) :
    isFunction s = true ∧ nameTruthy (storeNameOf s) = true ∧
    ((alistGet d.stores (jsKey (storeNameOf s)) = some s ∧ d' = d) ∨
     (truthyOpt (alistGet d.stores (jsKey (storeNameOf s))) = false ∧
      d' = bindStore d (jsKey (storeNameOf s)) s)) := by
  cases s with
  | vnull => simp [registerStore, isFunction] at h
  | vundefined => simp [registerStore, isFunction] at h
  | vstr s => simp [registerStore, isFunction] at h
  | vobj i sn n => simp [registerStore, isFunction] at h
  | vfunc i sn n hs =>
    have hred := registerStore_vfunc_red d i sn n hs
    by_cases h1 : nameTruthy (jsOrStr sn (some n)) = false
    · rw [hred, if_pos h1] at h
      exact absurd (congrArg Prod.snd h) (by simp)
    · have h1' : nameTruthy (jsOrStr sn (some n)) = true := by simpa using h1
      rw [hred, if_neg h1] at h
      by_cases h2 : truthyOpt
          (alistGet d.stores (jsKey (jsOrStr sn (some n)))) = true
      · rw [if_pos h2] at h
        by_cases h3 : alistGet d.stores (jsKey (jsOrStr sn (some n))) =
            some (.vfunc i sn n hs)
        · rw [if_pos h3] at h
          exact ⟨rfl, h1', Or.inl ⟨h3, (congrArg Prod.fst h).symm⟩⟩
        · rw [if_neg h3] at h
          exact absurd (congrArg Prod.snd h) (by simp)
      · have h2' : truthyOpt
            (alistGet d.stores (jsKey (jsOrStr sn (some n)))) = false := by
          simpa using h2
        rw [if_neg h2] at h
        exact ⟨rfl, h1', Or.inr ⟨h2', (congrArg Prod.fst h).symm⟩⟩

/-! ### Claim C1 -/

/-- Claim C1: `registerStore` throws exactly when, checked in this order, the
argument is not a function (invalid-store error), the resolved canonical name
is falsy (missing-name error), or the name is already bound to a different
reference (duplicate-registration error naming the conflicting name); for
every other input it succeeds and the name is bound to the store. -/
theorem registerStore_taxonomy (d : Dispatcher) (store : JSVal) :
    (isFunction store = false →
      registerStore d store = (d, some (.jsError
        "registerStore requires a constructor as first parameter"))) ∧
    (isFunction store = true → nameTruthy (storeNameOf store) = false →
      registerStore d store = (d, some (.jsError
        "Store is required to have a `storeName` property."))) ∧
    (isFunction store = true → nameTruthy (storeNameOf store) = true →
      ∀ existing, alistGet d.stores (jsKey (storeNameOf store)) = some existing →
        truthy existing = true → existing ≠ store →
        registerStore d store = (d, some (.jsError
          ("Store with name `" ++ jsKey (storeNameOf store) ++
            "` has already been registered.")))) ∧
    (isFunction store = true → nameTruthy (storeNameOf store) = true →
      truthyOpt (alistGet d.stores (jsKey (storeNameOf store))) = false →
      (registerStore d store).2 = none ∧
        alistGet (registerStore d store).1.stores (jsKey (storeNameOf store)) =
          some store) ∧
    (isFunction store = true → nameTruthy (storeNameOf store) = true →
      alistGet d.stores (jsKey (storeNameOf store)) = some store →
      registerStore d store = (d, none)) := by
  cases store with
  | vnull =>
    exact ⟨fun _ => rfl, by simp [isFunction], by simp [isFunction],
      by simp [isFunction], by simp [isFunction]⟩
  | vundefined =>
    exact ⟨fun _ => rfl, by simp [isFunction], by simp [isFunction],
      by simp [isFunction], by simp [isFunction]⟩
  | vstr s =>
    exact ⟨fun _ => rfl, by simp [isFunction], by simp [isFunction],
      by simp [isFunction], by simp [isFunction]⟩
  | vobj i sn n =>
    exact ⟨fun _ => rfl, by simp [isFunction], by simp [isFunction],
      by simp [isFunction], by simp [isFunction]⟩
  | vfunc i sn nm hs =>
    simp only [storeNameOf]
    have hred := registerStore_vfunc_red d i sn nm hs
    refine ⟨by simp [isFunction], ?_, ?_, ?_, ?_⟩
    · intro _ h1
      rw [hred, if_pos h1]
    · intro _ h1 existing hex htr hne
      rw [hred, if_neg (by simp [h1]),
        if_pos (show truthyOpt
            (alistGet d.stores (jsKey (jsOrStr sn (some nm)))) = true by
          rw [hex]; exact htr),
        if_neg (show ¬ alistGet d.stores (jsKey (jsOrStr sn (some nm))) =
            some (.vfunc i sn nm hs) by rw [hex]; simp [hne])]
    · intro _ h1 hft
      rw [hred, if_neg (by simp [h1]), if_neg (by simp [hft])]
      exact ⟨rfl, by simp [bindStore, alistGet_alistSet_self]⟩
    · intro _ h1 hex
      rw [hred, if_neg (by simp [h1]),
        if_pos (show truthyOpt
            (alistGet d.stores (jsKey (jsOrStr sn (some nm)))) = true by
          rw [hex]; rfl),
        if_pos hex]

/-- Witness for claim C1 on the success branch at a concrete class. -/
theorem registerStore_taxonomy_witness :
    (registerStore newDispatcher (.vfunc 0 (some "A") "A" none)).2 = none ∧
    alistGet (registerStore newDispatcher
        (.vfunc 0 (some "A") "A" none)).1.stores "A" =
      some (.vfunc 0 (some "A") "A" none) := by
  have h := (registerStore_taxonomy newDispatcher
      (.vfunc 0 (some "A") "A" none)).2.2.2.1 rfl rfl rfl
  exact h

/-! ### Claim C3 -/

/-- Claim C3: re-registering the identical store reference after a successful
registration succeeds silently and returns the registry in exactly the state
left by the first call — in particular the handler-table side effect is not
re-executed. -/
theorem registerStore_idempotent (d d' : Dispatcher) (s : JSVal)
    (h : registerStore d s = (d', none)) :
    registerStore d' s = (d', none) := by
  obtain ⟨hf, hn, hcase⟩ := registerStore_ok_cases d d' s h
  have hbound : alistGet d'.stores (jsKey (storeNameOf s)) = some s := by
    rcases hcase with ⟨hb, rfl⟩ | ⟨-, rfl⟩
    · exact hb
    · simp [bindStore, alistGet_alistSet_self]
  cases s with
  | vnull => simp [isFunction] at hf
  | vundefined => simp [isFunction] at hf
  | vstr s => simp [isFunction] at hf
  | vobj i sn n => simp [isFunction] at hf
  | vfunc i sn nm hs =>
    simp only [storeNameOf] at hn hbound
    rw [registerStore_vfunc_red, if_neg (by simp [hn]),
      if_pos (show truthyOpt
          (alistGet d'.stores (jsKey (jsOrStr sn (some nm)))) = true by
        rw [hbound]; rfl),
      if_pos hbound]

/-- Witness for claim C3: a store carrying a handler map registered twice
from the fresh registry. -/
theorem registerStore_idempotent_witness :
    registerStore
        (registerStore newDispatcher
          (.vfunc 3 (some "B") "B" (some [("foo", .direct 1)]))).1
        (.vfunc 3 (some "B") "B" (some [("foo", .direct 1)])) =
      ((registerStore newDispatcher
          (.vfunc 3 (some "B") "B" (some [("foo", .direct 1)]))).1, none) :=
  registerStore_idempotent newDispatcher _
    (.vfunc 3 (some "B") "B" (some [("foo", .direct 1)])) rfl

/-! ### Claim C7 -/

/-- Claim C7: every failing `registerStore` or `registerDomain` call leaves
the registry — store registry, domain registry and handler table — exactly as
it was before the call. -/
theorem register_no_partial_mutation (d : Dispatcher) (v : JSVal)
    (e : JSError) :
    ((registerStore d v).2 = some e → (registerStore d v).1 = d) ∧
    ((registerDomain d v).2 = some e → (registerDomain d v).1 = d) := by
  constructor
  · intro hsnd
    cases v with
    | vnull => rfl
    | vundefined => rfl
    | vstr s => rfl
    | vobj i sn n => rfl
    | vfunc i sn nm hs =>
      rw [registerStore_vfunc_red] at hsnd ⊢
      by_cases h1 : nameTruthy (jsOrStr sn (some nm)) = false
      · rw [if_pos h1]
      · rw [if_neg h1] at hsnd ⊢
        by_cases h2 : truthyOpt
            (alistGet d.stores (jsKey (jsOrStr sn (some nm)))) = true
        · rw [if_pos h2] at hsnd ⊢
          by_cases h3 : alistGet d.stores (jsKey (jsOrStr sn (some nm))) =
              some (.vfunc i sn nm hs)
          · rw [if_pos h3] at hsnd
            simp at hsnd
          · rw [if_neg h3]
        · rw [if_neg h2] at hsnd
          simp at hsnd
  · intro hsnd
    cases v with
    | vnull => rfl
    | vundefined => rfl
    | vstr s =>
      rw [registerDomain_red d (.vstr s) (some s) rfl] at hsnd ⊢
      by_cases h1 : nameTruthy (some s) = false
      · rw [if_pos h1]
      · rw [if_neg h1] at hsnd ⊢
        by_cases h2 : truthyOpt (alistGet d.domains (jsKey (some s))) = true
        · rw [if_pos h2] at hsnd ⊢
          by_cases h3 : alistGet d.domains (jsKey (some s)) = some (.vstr s)
          · rw [if_pos h3] at hsnd
            simp at hsnd
          · rw [if_neg h3]
        · rw [if_neg h2] at hsnd
          simp at hsnd
    | vobj i sn n =>
      rw [registerDomain_red d (.vobj i sn n) (jsOrStr sn n) rfl] at hsnd ⊢
      by_cases h1 : nameTruthy (jsOrStr sn n) = false
      · rw [if_pos h1]
      · rw [if_neg h1] at hsnd ⊢
        by_cases h2 : truthyOpt (alistGet d.domains (jsKey (jsOrStr sn n))) = true
        · rw [if_pos h2] at hsnd ⊢
          by_cases h3 : alistGet d.domains (jsKey (jsOrStr sn n)) =
              some (.vobj i sn n)
          · rw [if_pos h3] at hsnd
            simp at hsnd
          · rw [if_neg h3]
        · rw [if_neg h2] at hsnd
          simp at hsnd
    | vfunc i sn nm hs =>
      rw [registerDomain_red d (.vfunc i sn nm hs) (jsOrStr sn (some nm))
        rfl] at hsnd ⊢
      by_cases h1 : nameTruthy (jsOrStr sn (some nm)) = false
      · rw [if_pos h1]
      · rw [if_neg h1] at hsnd ⊢
        by_cases h2 : truthyOpt
            (alistGet d.domains (jsKey (jsOrStr sn (some nm)))) = true
        · rw [if_pos h2] at hsnd ⊢
          by_cases h3 : alistGet d.domains (jsKey (jsOrStr sn (some nm))) =
              some (.vfunc i sn nm hs)
          · rw [if_pos h3] at hsnd
            simp at hsnd
          · rw [if_neg h3]
        · rw [if_neg h2] at hsnd
          simp at hsnd

/-- Witness for claim C7: the invalid-store rejection and the TypeError of a
`registerDomain(undefined)` call both leave the fresh registry unchanged. -/
theorem register_no_partial_mutation_witness :
    (registerStore newDispatcher (.vstr "x")).1 = newDispatcher ∧
    (registerDomain newDispatcher .vundefined).1 = newDispatcher :=
  ⟨(register_no_partial_mutation newDispatcher (.vstr "x")
      (.jsError "registerStore requires a constructor as first parameter")).1
      rfl,
   (register_no_partial_mutation newDispatcher .vundefined .typeError).2 rfl⟩

/-! ### Claim C2 -/

/-- For any action key already present in the table, the handler loop appends
exactly the bindings that action receives from the store's map, in map
enumeration order. -/
theorem alistGet_registerHandlers (tbl : List (String × List HandlerBinding))
    (nm : String) (hs : List (String × Handler)) (a : String)
    (l : List HandlerBinding) (h : alistGet tbl a = some l) :
    alistGet (registerHandlers tbl nm hs) a =
      some (l ++ hs.filterMap
        (fun p => if p.1 = a then some ⟨nm, p.2⟩ else none)) := by
  induction hs generalizing tbl l with
  | nil => simpa [registerHandlers] using h
  | cons p t ih =>
    obtain ⟨act, hd⟩ := p
    rw [show registerHandlers tbl nm ((act, hd) :: t) =
        registerHandlers (registerHandler tbl act nm hd) nm t from rfl]
    by_cases hpa : act = a
    · subst hpa
      have h1 : alistGet (registerHandler tbl act nm hd) act =
          some (l ++ [⟨nm, hd⟩]) := by
        simp [registerHandler, h, alistGet_alistSet_self]
      rw [ih _ _ h1]
      simp
    · have h1 : alistGet (registerHandler tbl act nm hd) a = some l := by
        unfold registerHandler
        rw [alistGet_alistSet_ne _ _ _ _ (fun hh => hpa hh.symm)]
        exact h
      rw [ih _ _ h1]
      simp [hpa]

/-- Claim C2: registering two distinct stores S1 (handlers `{foo: h1}`) then
S2 (handlers `{foo: h2}`), both successfully, makes the action-`foo` handler
list exactly `[{canonicalName S1, h1}, {canonicalName S2, h2}]` — appended in
registration order, never reversed, deduplicated or merged. -/
theorem registerStore_handler_order
    (i1 i2 : Nat) (sn1 sn2 : Option String) (nm1 nm2 : String)
    (h1 h2 : Handler) (cn1 cn2 : String) (d1 d2 : Dispatcher)
    (hne : JSVal.vfunc i1 sn1 nm1 (some [("foo", h1)]) ≠
      JSVal.vfunc i2 sn2 nm2 (some [("foo", h2)]))
    (hn1 : storeNameOf (.vfunc i1 sn1 nm1 (some [("foo", h1)])) = some cn1)
    (hn2 : storeNameOf (.vfunc i2 sn2 nm2 (some [("foo", h2)])) = some cn2)
    (hs1 : registerStore newDispatcher
      (.vfunc i1 sn1 nm1 (some [("foo", h1)])) = (d1, none))
    (hs2 : registerStore d1
      (.vfunc i2 sn2 nm2 (some [("foo", h2)])) = (d2, none)) :
    alistGet d2.handlers "foo" = some [⟨cn1, h1⟩, ⟨cn2, h2⟩] := by
  obtain ⟨-, -, hc1⟩ := registerStore_ok_cases _ _ _ hs1
  rw [hn1] at hc1
  have hd1 : d1 =
      { stores := [(cn1, .vfunc i1 sn1 nm1 (some [("foo", h1)]))],
        domains := [],
        handlers := [("default", []), ("foo", [⟨cn1, h1⟩])] } := by
    rcases hc1 with ⟨hb, -⟩ | ⟨-, hb⟩
    · simp [newDispatcher, alistGet] at hb
    · rw [hb]
      rfl
  obtain ⟨-, -, hc2⟩ := registerStore_ok_cases _ _ _ hs2
  rw [hn2] at hc2
  rcases hc2 with ⟨hb, -⟩ | ⟨-, hb⟩
  · rw [hd1] at hb
    simp only [jsKey, alistGet] at hb
    by_cases hcc : cn1 = cn2
    · rw [if_pos hcc] at hb
      exact absurd (Option.some.inj hb) hne
    · rw [if_neg hcc] at hb
      simp at hb
  · rw [hb, hd1]
    rfl

/-- Witness for claim C2 at two concrete stores named `"S1"` and `"S2"`. -/
theorem registerStore_handler_order_witness :
    alistGet (registerStore (registerStore newDispatcher
        (.vfunc 0 (some "S1") "S1" (some [("foo", .direct 10)]))).1
        (.vfunc 1 (some "S2") "S2" (some [("foo", .byName "m")]))).1.handlers
      "foo" = some [⟨"S1", .direct 10⟩, ⟨"S2", .byName "m"⟩] :=
  registerStore_handler_order 0 1 (some "S1") (some "S2") "S1" "S2"
    (.direct 10) (.byName "m") "S1" "S2" _ _ (by decide) rfl rfl rfl rfl

/-! ### Claim C6 -/

/-- Claim C6: immediately after construction the handler table binds
`"default"` to the empty list, and a successful store registration grows the
`default` list only by the bindings the store itself declares under the
literal action name `"default"` — no other registration populates it. -/
theorem default_bucket (d d' : Dispatcher) (s : JSVal)
    (l : List HandlerBinding) :
    alistGet (createDispatcher [] []).1.handlers "default" = some [] ∧
    alistGet newDispatcher.handlers "default" = some [] ∧
    (registerStore d s = (d', none) →
      alistGet d.handlers "default" = some l →
      alistGet d'.handlers "default" = some l ∨
      alistGet d'.handlers "default" = some (l ++
        ((staticHandlers s).getD []).filterMap
          (fun p => if p.1 = "default" then
            some ⟨jsKey (storeNameOf s), p.2⟩ else none))) := by
  refine ⟨rfl, rfl, fun hreg hl => ?_⟩
  obtain ⟨-, -, hcase⟩ := registerStore_ok_cases _ _ _ hreg
  rcases hcase with ⟨-, rfl⟩ | ⟨-, rfl⟩
  · exact Or.inl hl
  · cases hsh : staticHandlers s with
    | none =>
      left
      simpa [bindStore, hsh] using hl
    | some hs =>
      right
      have hg := alistGet_registerHandlers d.handlers
        (jsKey (storeNameOf s)) hs "default" l hl
      simpa [bindStore, hsh] using hg

/-- Witness for claim C6: a store declaring a handler under the literal
action name `"default"` grows the initially empty default bucket. -/
theorem default_bucket_witness :
    alistGet (createDispatcher [] []).1.handlers "default" = some [] ∧
    (alistGet (registerStore newDispatcher
        (.vfunc 0 (some "A") "A" (some [("default", .direct 5)]))).1.handlers
        "default" = some [] ∨
     alistGet (registerStore newDispatcher
        (.vfunc 0 (some "A") "A" (some [("default", .direct 5)]))).1.handlers
        "default" = some ([] ++
          ((staticHandlers (.vfunc 0 (some "A") "A"
              (some [("default", .direct 5)]))).getD []).filterMap
            (fun p => if p.1 = "default" then
              some ⟨jsKey (storeNameOf (.vfunc 0 (some "A") "A"
                (some [("default", .direct 5)]))), p.2⟩ else none))) := by
  have h := default_bucket newDispatcher
      (registerStore newDispatcher
        (.vfunc 0 (some "A") "A" (some [("default", .direct 5)]))).1
      (.vfunc 0 (some "A") "A" (some [("default", .direct 5)])) []
  exact ⟨h.1, h.2.2 rfl rfl⟩

/-! ### Claim C8 -/

/-- Claim C8: after registering class `A` under canonical name `n`,
`isRegistered n` is true, `isRegistered A` is true, and `isRegistered B` is
false for every distinct class `B` that also resolves to `n` — a string
argument checks only the name binding while a function argument additionally
requires reference identity with the bound class. -/
theorem isRegistered_reference_aware (d d' : Dispatcher) (a : JSVal)
    (n : String) (hreg : registerStore d a = (d', none))
    (hn : storeNameOf a = some n) :
    isRegistered d' (.vstr n) = .ok true ∧
    isRegistered d' a = .ok true ∧
    ∀ b : JSVal, isFunction b = true → b ≠ a → storeNameOf b = some n →
      isRegistered d' b = .ok false := by
  obtain ⟨hf, -, hcase⟩ := registerStore_ok_cases d d' a hreg
  have hbound : alistGet d'.stores n = some a := by
    have hb0 : alistGet d'.stores (jsKey (storeNameOf a)) = some a := by
      rcases hcase with ⟨hb, rfl⟩ | ⟨-, rfl⟩
      · exact hb
      · simp [bindStore, alistGet_alistSet_self]
    rw [hn] at hb0
    simpa [jsKey] using hb0
  have hta : truthy a = true := by
    cases a <;> simp_all [isFunction, truthy]
  refine ⟨?_, ?_, ?_⟩
  · rw [isRegistered_red d' (.vstr n) (some n) rfl]
    simp only [jsKey]
    simp only [hbound]
    simp [truthyOpt, hta, isFunction]
  · have hga : getStoreName a = .ok (some n) := by
      cases a <;> simp_all [getStoreName, storeNameOf, isFunction]
    rw [isRegistered_red d' a (some n) hga]
    simp only [jsKey]
    simp only [hbound]
    simp [truthyOpt, hta]
  · intro b hbf hbne hbn
    have hgb : getStoreName b = .ok (some n) := by
      cases b <;> simp_all [getStoreName, storeNameOf, isFunction]
    rw [isRegistered_red d' b (some n) hgb]
    simp only [jsKey]
    simp only [hbound]
    simp [truthyOpt, hta, hbf, hbne]

/-- Witness for claim C8 at concrete classes: `A` with id 0 registered, `B`
with id 1 claiming the same name but never registered. -/
theorem isRegistered_reference_aware_witness :
    isRegistered (registerStore newDispatcher
        (.vfunc 0 (some "A") "A" none)).1 (.vstr "A") = .ok true ∧
    isRegistered (registerStore newDispatcher
        (.vfunc 0 (some "A") "A" none)).1 (.vfunc 0 (some "A") "A" none) =
      .ok true ∧
    isRegistered (registerStore newDispatcher
        (.vfunc 0 (some "A") "A" none)).1 (.vfunc 1 (some "A") "A" none) =
      .ok false := by
  have h := isRegistered_reference_aware newDispatcher
      (registerStore newDispatcher (.vfunc 0 (some "A") "A" none)).1
      (.vfunc 0 (some "A") "A" none) "A" rfl rfl
  exact ⟨h.1, h.2.1, h.2.2 (.vfunc 1 (some "A") "A" none) rfl (by decide) rfl⟩

/-! ### Claim C9 -/

/-- Claim C9: the Store Registry and the Domain Registry are independent
namespaces — a store and a domain resolving to the same unbound name both
register successfully, in either order, with no duplicate conflict, and each
registry afterwards holds its own binding. -/
theorem namespace_independence (d : Dispatcher) (s dom : JSVal) (n : String)
    (hf : isFunction s = true) (hsn : storeNameOf s = some n)
    (hdn : storeNameOf dom = some n) (hne : n ≠ "")
    (h1 : alistGet d.stores n = none) (h2 : alistGet d.domains n = none) :
    (∃ d1 d2, registerStore d s = (d1, none) ∧
      registerDomain d1 dom = (d2, none) ∧
      alistGet d2.stores n = some s ∧ alistGet d2.domains n = some dom) ∧
    (∃ e1 e2, registerDomain d dom = (e1, none) ∧
      registerStore e1 s = (e2, none) ∧
      alistGet e2.stores n = some s ∧ alistGet e2.domains n = some dom) := by
  have hgdom : getStoreName dom = .ok (some n) := by
    cases dom <;> simp_all [getStoreName, storeNameOf]
  have hstore : ∀ e : Dispatcher, alistGet e.stores n = none →
      registerStore e s = (bindStore e n s, none) := by
    intro e he
    cases s with
    | vnull => simp [isFunction] at hf
    | vundefined => simp [isFunction] at hf
    | vstr s => simp [isFunction] at hf
    | vobj i sn nm => simp [isFunction] at hf
    | vfunc i sn nm hs =>
      simp only [storeNameOf] at hsn
      rw [registerStore_vfunc_red, hsn]
      simp [jsKey, nameTruthy, hne, he, truthyOpt]
  have hdom : ∀ e : Dispatcher, alistGet e.domains n = none →
      registerDomain e dom =
        ({ e with domains := alistSet e.domains n dom }, none) := by
    intro e he
    rw [registerDomain_red e dom (some n) hgdom]
    simp [jsKey, nameTruthy, hne, he, truthyOpt]
  constructor
  · exact ⟨bindStore d n s,
      { bindStore d n s with
          domains := alistSet (bindStore d n s).domains n dom },
      hstore d h1,
      hdom (bindStore d n s) (by simpa [bindStore] using h2),
      by simp [bindStore, alistGet_alistSet_self],
      by simp [bindStore, alistGet_alistSet_self]⟩
  · exact ⟨{ d with domains := alistSet d.domains n dom },
      bindStore { d with domains := alistSet d.domains n dom } n s,
      hdom d h2,
      hstore _ (by simpa using h1),
      by simp [bindStore, alistGet_alistSet_self],
      by simp [bindStore, alistGet_alistSet_self]⟩

/-- Witness for claim C9: a class and a plain domain object both named
`"A"` registered into the fresh registry. -/
theorem namespace_independence_witness :
    (∃ d1 d2,
      registerStore newDispatcher (.vfunc 0 (some "A") "A" none) =
        (d1, none) ∧
      registerDomain d1 (.vobj 1 (some "A") none) = (d2, none) ∧
      alistGet d2.stores "A" = some (.vfunc 0 (some "A") "A" none) ∧
      alistGet d2.domains "A" = some (.vobj 1 (some "A") none)) ∧
    (∃ e1 e2,
      registerDomain newDispatcher (.vobj 1 (some "A") none) = (e1, none) ∧
      registerStore e1 (.vfunc 0 (some "A") "A" none) = (e2, none) ∧
      alistGet e2.stores "A" = some (.vfunc 0 (some "A") "A" none) ∧
      alistGet e2.domains "A" = some (.vobj 1 (some "A") none)) :=
  namespace_independence newDispatcher (.vfunc 0 (some "A") "A" none)
    (.vobj 1 (some "A") none) "A" rfl rfl rfl (by decide) rfl rfl

/-! ### Claim C10 -/

/-- Claim C10: for a `null` or `undefined` argument, `getStoreName` — and with
it every operation that calls it first: `isRegistered`, `registerDomain`,
`isRegisteredDomain` — throws a TypeError from the property access on the
missing object, rather than returning `false` or raising the missing-identity
error; only `registerStore` is protected, by its preceding `typeof` check. -/
theorem nullish_argument_typeError (d : Dispatcher) (v : JSVal)
    (hv : v = .vnull ∨ v = .vundefined) :
    getStoreName v = .error .typeError ∧
    isRegistered d v = .error .typeError ∧
    registerDomain d v = (d, some .typeError) ∧
    isRegisteredDomain d v = .error .typeError ∧
    registerStore d v = (d, some (.jsError
      "registerStore requires a constructor as first parameter")) := by
  rcases hv with h | h <;> subst h <;> exact ⟨rfl, rfl, rfl, rfl, rfl⟩

/-- Witness for claim C10 at the concrete input `null` on the freshly
constructed registry. -/
theorem nullish_argument_typeError_witness :
    getStoreName .vnull = .error .typeError ∧
    isRegistered newDispatcher .vnull = .error .typeError ∧
    registerDomain newDispatcher .vnull = (newDispatcher, some .typeError) ∧
    isRegisteredDomain newDispatcher .vnull = .error .typeError ∧
    registerStore newDispatcher .vnull = (newDispatcher, some (.jsError
      "registerStore requires a constructor as first parameter")) :=
  nullish_argument_typeError newDispatcher .vnull (Or.inl rfl)

/-! ### Claim C4 -/

/-- Claim C4, counterexample: `registerDomain` performs no `typeof`
precondition check, so a plain (non-function) object carrying a `storeName`
property is accepted and bound rather than rejected with the invalid-argument
error. -/
theorem registerDomain_accepts_plain_object :
    registerDomain newDispatcher (.vobj 0 (some "D") none) =
      ({ stores := [], domains := [("D", .vobj 0 (some "D") none)],
         handlers := [("default", [])] }, none) := rfl

/-- Claim C4 (amended): `registerDomain` shares `registerStore`'s missing-name
and duplicate-registration policy and on success writes only into the Domain
Registry — no handler-table and no store-registry effect — but performs no
invalid-argument precondition: any argument that survives name resolution with
a truthy canonical name is accepted, function or not. -/
theorem registerDomain_contract (d : Dispatcher) (domain : JSVal)
    (r : Option String) (hr : getStoreName domain = .ok r) :
    (nameTruthy r = false →
      registerDomain d domain = (d, some (.jsError
        "Store is required to have a `storeName` property."))) ∧
    (nameTruthy r = true →
      ∀ existing, alistGet d.domains (jsKey r) = some existing →
        truthy existing = true → existing ≠ domain →
        registerDomain d domain = (d, some (.jsError
          ("Domain with name `" ++ jsKey r ++
            "` has already been registered.")))) ∧
    (nameTruthy r = true → alistGet d.domains (jsKey r) = some domain →
      truthy domain = true → registerDomain d domain = (d, none)) ∧
    (nameTruthy r = true →
      truthyOpt (alistGet d.domains (jsKey r)) = false →
      registerDomain d domain =
        ({ d with domains := alistSet d.domains (jsKey r) domain }, none)) := by
  have hred := registerDomain_red d domain r hr
  refine ⟨fun h1 => by rw [hred, if_pos h1], ?_, ?_, ?_⟩
  · intro h1 existing hex htr hne
    rw [hred, if_neg (by simp [h1]),
      if_pos (show truthyOpt (alistGet d.domains (jsKey r)) = true by
        rw [hex]; exact htr),
      if_neg (show ¬ alistGet d.domains (jsKey r) = some domain by
        rw [hex]; simp [hne])]
  · intro h1 hex htr
    rw [hred, if_neg (by simp [h1]),
      if_pos (show truthyOpt (alistGet d.domains (jsKey r)) = true by
        rw [hex]; exact htr),
      if_pos hex]
  · intro h1 hft
    rw [hred, if_neg (by simp [h1]), if_neg (by simp [hft])]

/-- Witness for claim C4 (amended) on the fresh-binding branch at a concrete
plain object. -/
theorem registerDomain_contract_witness :
    registerDomain newDispatcher (.vobj 1 (some "E") none) =
      ({ stores := [], domains := [("E", .vobj 1 (some "E") none)],
         handlers := [("default", [])] }, none) := by
  have h := (registerDomain_contract newDispatcher (.vobj 1 (some "E") none)
      (some "E") rfl).2.2.2 rfl rfl
  exact h

/-! ### Claim C5 -/

/-- Claim C5 (code bug): after successfully registering a domain named `"A"`,
`isRegisteredDomain "A"` does not return `true` as the intended contract
requires — the body's `this.domainName[storeName]` subscript throws a
ReferenceError on every call that survives name resolution, so the intended
Domain Registry lookup is unreachable. -/
theorem isRegisteredDomain_always_throws :
    (registerDomain newDispatcher (.vobj 0 (some "A") none)).2 = none ∧
    isRegisteredDomain
      (registerDomain newDispatcher (.vobj 0 (some "A") none)).1 (.vstr "A") =
      .error (.referenceError "storeName is not defined") := ⟨rfl, rfl⟩

end Dispatchr
